import Mathlib

/-!
Shallow embedding of `internal/pkg/ocrschema/schema.go` from
xor22h/rok-monster-ocr-golang, together with the small slices of its
collaborators (`goimagehash`, `encoding/json`, `strconv`) that the schema
code exercises.  Definitions follow the Go source line by line; theorems at
the end of the file settle the specification claims.
-/

namespace RokOCR

/-- Outcome of a Go computation: a normal value, a returned `error`, or a
runtime panic (nil dereference, index out of range, failed type assertion). -/
inductive GoResult (α : Type) where
  | ok (a : α)
  | err (e : String)
  | panik (msg : String)
deriving DecidableEq, Repr

/-- `v, _ := f()` — Go discards the error; a panicking or failing call leaves
no usable value, a succeeding one does. -/
def GoResult.toOption {α : Type} : GoResult α → Option α
  | .ok a => some a
  | .err _ => none
  | .panik _ => none

/-! ## The goimagehash collaborator -/

/-- Hash kinds of the `goimagehash` library (`AHash`, `PHash`, `DHash`, `WHash`). -/
inductive HashKind where
  | aHash
  | pHash
  | dHash
  | wHash
deriving DecidableEq, Repr

/-- `goimagehash.ImageHash`: a 64-bit hash value plus its kind. -/
structure ImageHash where
  hash : Nat
  kind : HashKind
deriving DecidableEq, Repr

/-- Population count of a 64-bit value: the number of set bits among bit
positions 0..63 (`bits.OnesCount64` on the XOR in `goimagehash`). -/
def popcnt (x : Nat) : Nat :=
  ((List.range 64).filter (fun i => x.testBit i)).length

/-- `(*ImageHash).Distance`: errors when the kinds differ, otherwise the
Hamming distance, i.e. the popcount of the XOR of the two 64-bit values. -/
def ImageHash.Distance (h other : ImageHash) : Except String Nat :=
  if h.kind ≠ other.kind then
    .error "image hash kind mismatch"
  else
    .ok (popcnt (Nat.xor h.hash other.hash))

/-- Go `image.Rectangle`, kept as the four coordinates Min.X, Min.Y, Max.X,
Max.Y. -/
structure GoRect where
  minX : Int
  minY : Int
  maxX : Int
  maxY : Int
deriving DecidableEq, Repr

/-- Go `image.Rect(x0, y0, x1, y1)`: swaps the coordinates on each axis so
that Min ≤ Max. -/
def imageRect (x0 y0 x1 y1 : Int) : GoRect :=
  ⟨min x0 x1, min y0 y1, max x0 x1, max y0 y1⟩

/-- `r.In s` for Go rectangles restricted to the containment test: every
point of `r` lies inside `s`. -/
def GoRect.inRect (r s : GoRect) : Bool :=
  s.minX ≤ r.minX && r.maxX ≤ s.maxX && s.minY ≤ r.minY && r.maxY ≤ s.maxY

/-- A decoded raster image, abstracted to what the matcher observes of it:
its bounds and, for every rectangle, the 64-bit difference hash that the
`goimagehash.DifferenceHash` primitive computes on the sub-image at that
rectangle (the spec treats pixel data and the hash computation as a black-box
collaborator; the whole-image hash is the one at the image's own bounds). -/
structure GoImage where
  bounds : GoRect
  dhashAt : GoRect → Nat

/-- `goimagehash.DifferenceHash` on a non-nil image: always succeeds and
yields a 64-bit hash of kind DHash. -/
def goDifferenceHash (img : GoImage) : ImageHash :=
  ⟨img.dhashAt img.bounds % 2 ^ 64, .dHash⟩

/-! ## strconv.ParseUint -/

/-- Value of one hexadecimal digit, `none` for a non-hex character. -/
def hexDigitVal (c : Char) : Option Nat :=
  if '0' ≤ c ∧ c ≤ '9' then some (c.toNat - '0'.toNat)
  else if 'a' ≤ c ∧ c ≤ 'f' then some (c.toNat - 'a'.toNat + 10)
  else if 'A' ≤ c ∧ c ≤ 'F' then some (c.toNat - 'A'.toNat + 10)
  else none

/-- Read every character as a hex digit; `none` as soon as one is not. -/
def parseHexDigits : List Char → Option (List Nat)
  | [] => some []
  | c :: cs =>
    match hexDigitVal c, parseHexDigits cs with
    | some d, some ds => some (d :: ds)
    | _, _ => none

/-- `strconv.ParseUint(s, 16, 64)`: the returned value together with an error
flag.  A syntax error (empty string or a non-hex character) yields value 0;
a range error (the hex numeral does not fit in 64 bits) yields the maximum
64-bit value; otherwise the parsed value with no error. -/
def parseUintHex64 (s : String) : Nat × Bool :=
  match parseHexDigits s.data with
  | none => (0, true)
  | some [] => (0, true)
  | some ds =>
    let v := ds.foldl (fun a d => 16 * a + d) 0
    if v < 2 ^ 64 then (v, false) else (2 ^ 64 - 1, true)

/-! ## The schema data model -/

/-- `OCRCrop`: a crop rectangle, origin (X, Y) and extent (W, H). -/
structure OCRCrop where
  X : Int
  Y : Int
  W : Int
  H : Int
deriving DecidableEq, Repr

/-- `(*OCRCrop).CropRectange`: `image.Rect(X, Y, X+W, Y+H)`. -/
def OCRCrop.CropRectange (b : OCRCrop) : GoRect :=
  imageRect b.X b.Y (b.X + b.W) (b.Y + b.H)

/-- `OCRCheckpoint`: an optional crop rectangle (a nil-able pointer in Go)
plus a fingerprint string. -/
structure OCRCheckpoint where
  Crop : Option OCRCrop
  Fingerprint : String
deriving DecidableEq, Repr

/-- JSON values as decoded by `encoding/json`, with numbers restricted to the
integer literals that template documents use. -/
inductive Json where
  | null
  | bool (b : Bool)
  | num (n : Int)
  | str (s : String)
  | arr (elems : List Json)
  | obj (fields : List (String × Json))

/-- `ROKOCRSchema`: OCR extraction instructions for one named field.  The Go
`interface` / `[]interface` fields hold decoded JSON values.  Defaults are
the Go zero values. -/
structure ROKOCRSchema where
  Callback : Json := .null
  Languages : List String := []
  OEM : Int := 0
  PSM : Int := 0
  Crop : Option OCRCrop := none
  AllowList : List Json := []

/-- `ROKTableField`: a table column descriptor. -/
structure ROKTableField where
  Title : String
  Field : String
  Bold : Bool
  Color : String
deriving DecidableEq, Repr

/-- `RokOCRTemplate` with Go zero values as defaults. -/
structure RokOCRTemplate where
  Title : String := ""
  Version : String := ""
  Author : String := ""
  Width : Int := 0
  Height : Int := 0
  OCRSchema : List (String × ROKOCRSchema) := []
  Fingerprint : String := ""
  Threshold : Int := 0
  Table : List ROKTableField := []
  Checkpoints : List OCRCheckpoint := []

/-! ## Hashing and matching -/

/-- `differenceHashFromString`: parses the hex string, discards the parse
error, and wraps the value as a DHash-kind hash. -/
def differenceHashFromString (s : String) : ImageHash :=
  ⟨(parseUintHex64 s).1, .dHash⟩

/-- `(*RokOCRTemplate).Hash`. -/
def RokOCRTemplate.Hash (b : RokOCRTemplate) : ImageHash :=
  differenceHashFromString b.Fingerprint

/-- Modelled from the spec: `imgutils.CropImage` is not under src/.  The spec
describes it as an external collaborator that, "given an image and a
rectangle, returns the sub-image; may fail if the rectangle is out of
bounds".  The sub-image keeps the rectangle as its bounds and the same
underlying pixel data, hence the same per-rectangle hashes. -/
def CropImage (img : GoImage) (r : GoRect) : GoResult GoImage :=
  if r.inRect img.bounds then .ok ⟨r, img.dhashAt⟩
  else .err "crop rectangle out of bounds"

/-- `hashMatches(b image.Image, hash *goimagehash.ImageHash) bool`.
The Go code runs `imghash, _ := goimagehash.DifferenceHash(b)` and then calls
`imghash.Distance(hash)`.  When `b` is nil (a failed crop), `DifferenceHash`
returns a nil hash and the `Distance` call dereferences a nil receiver — a
runtime panic.  Otherwise a distance error yields `false` and a computed
distance is accepted when at most 1. -/
def hashMatches (b : Option GoImage) (hash : ImageHash) : GoResult Bool :=
  match b with
  | none => .panik "runtime error: invalid memory address or nil pointer dereference"
  | some img =>
    match (goDifferenceHash img).Distance hash with
    | .error _ => .ok false
    | .ok distance => .ok (decide (1 ≥ distance))

/-- The checkpoint loop of `(*RokOCRTemplate).Matches`.  For each checkpoint
the Go code evaluates `s.Crop.CropRectange()` — a nil-pointer panic when the
checkpoint has no crop — then crops (discarding the error) and tests
`hashMatches`, returning false on the first failing checkpoint. -/
def matchCheckpoints (img : GoImage) : List OCRCheckpoint → GoResult Bool
  | [] => .ok true
  | s :: rest =>
    let expectedHash := differenceHashFromString s.Fingerprint
    match s.Crop with
    | none => .panik "runtime error: invalid memory address or nil pointer dereference"
    | some crop =>
      let subImg := (CropImage img crop.CropRectange).toOption
      match hashMatches subImg expectedHash with
      | .ok true => matchCheckpoints img rest
      | .ok false => .ok false
      | .err e => .err e
      | .panik p => .panik p

/-- `(*RokOCRTemplate).Match`: distance from the template's decoded
fingerprint to the supplied hash, `false` on a distance error, otherwise the
comparison against the template threshold. -/
def RokOCRTemplate.Match (b : RokOCRTemplate) (hash : ImageHash) : Bool :=
  match b.Hash.Distance hash with
  | .error _ => false
  | .ok distance => decide ((distance : Int) ≤ b.Threshold)

/-- `(*RokOCRTemplate).Matches`: computes the whole-image hash, then either
the whole-image `Match` (no checkpoints) or the checkpoint loop. -/
def RokOCRTemplate.Matches (b : RokOCRTemplate) (img : GoImage) : GoResult Bool :=
  let imageHash := goDifferenceHash img
  if b.Checkpoints.isEmpty then .ok (b.Match imageHash)
  else matchCheckpoints img b.Checkpoints

/-- `NewNumberField`. -/
def NewNumberField (cropArea : Option OCRCrop) : ROKOCRSchema :=
  { Languages := ["eng"]
    Callback := .arr []
    AllowList := [.num 0, .num 1, .num 2, .num 3, .num 4, .num 5, .num 6,
      .num 7, .num 8, .num 9]
    PSM := 7
    OEM := 1
    Crop := cropArea }

/-- `NewTextField`. -/
def NewTextField (cropArea : Option OCRCrop) (languages : List String) : ROKOCRSchema :=
  { Languages := languages
    Callback := .arr []
    PSM := 7
    OEM := 1
    Crop := cropArea }

/-! ## float64 conversion

`encoding/json` decodes a JSON number stored in an `interface` as a
`float64`.  For the integer literals of template documents this is the
IEEE-754 round-to-nearest-even of the integer: exact below `2 ^ 53`, rounded
to 53 significant bits above. -/

/-- Number of binary digits of `m`, driven by explicit fuel (enough for the
64-bit integers Go works with). -/
def bitLen : Nat → Nat → Nat
  | 0, _ => 0
  | fuel + 1, m => if m = 0 then 0 else bitLen fuel (m / 2) + 1

/-- Nearest `float64` of a natural number (round to nearest, ties to even,
53-bit significand); numbers below `2 ^ 53` are exact. -/
def roundF64Nat (m : Nat) : Nat :=
  if m < 2 ^ 53 then m
  else
    let k := bitLen 128 m - 53
    let q := m / 2 ^ k
    let r := m % 2 ^ k
    let half := 2 ^ (k - 1)
    if half < r ∨ (r = half ∧ q % 2 = 1) then (q + 1) * 2 ^ k else q * 2 ^ k

/-- The integer value of the `float64` nearest to the integer `n` (Go's
`int(v.(float64))` applied to a decoded integer literal). -/
def float64OfInt (n : Int) : Int :=
  if n < 0 then -(roundF64Nat n.natAbs : Int) else (roundF64Nat n.natAbs : Int)

/-- The Go type assertion `v.(float64)` on a decoded JSON element: succeeds
exactly on numbers, whose decoded value went through `float64`. -/
def Json.asFloat64 : Json → Option Int
  | .num n => some (float64OfInt n)
  | _ => none

/-- The Go comma-ok assertion `v.(string)` on a decoded JSON element. -/
def Json.asGoString : Json → Option String
  | .str s => some s
  | _ => none

/-! ## The positional codecs -/

/-- `(*ROKTableField).MarshalJSON`: the positional array
`[title, field, bold, color]`. -/
def ROKTableField.marshalJSON (b : ROKTableField) : Json :=
  .arr [.str b.Title, .str b.Field, .bool b.Bold, .str b.Color]

/-- Body of `(*ROKTableField).UnmarshalJSON` once the data has decoded to a
slice `v`.  `v[0]`/`v[1]` use comma-ok string assertions (zero string on
mismatch), `v[2].(bool)` and `v[3].(string)` are single-value assertions that
panic on mismatch, and any index beyond the slice length panics. -/
def tableFieldFromElems : List Json → GoResult ROKTableField
  | e0 :: e1 :: e2 :: e3 :: _ =>
    let title := (e0.asGoString).getD ""
    let field := (e1.asGoString).getD ""
    match e2 with
    | .bool bold =>
      match e3 with
      | .str color => .ok ⟨title, field, bold, color⟩
      | _ => .panik "interface conversion: interface is not string"
    | _ => .panik "interface conversion: interface is not bool"
  | _ => .panik "runtime error: index out of range"

/-- `(*ROKTableField).UnmarshalJSON`: unmarshals into `[]interface`; JSON
`null` leaves the slice nil, a non-array is a returned error, and the
positional reads then run on the slice. -/
def ROKTableField.unmarshalJSON (data : Json) : GoResult ROKTableField :=
  match data with
  | .arr v => tableFieldFromElems v
  | .null => tableFieldFromElems []
  | _ => .err "json: cannot unmarshal value into Go value of type []interface"

/-- `(*OCRCrop).MarshalJSON`: the positional array `[x, y, w, h]`. -/
def OCRCrop.marshalJSON (b : OCRCrop) : Json :=
  .arr [.num b.X, .num b.Y, .num b.W, .num b.H]

/-- Body of `(*OCRCrop).UnmarshalJSON` on the decoded slice: four
single-value `.(float64)` assertions (panic on a non-number) truncated to
int; missing elements panic with an index error. -/
def cropFromElems : List Json → GoResult OCRCrop
  | e0 :: e1 :: e2 :: e3 :: _ =>
    match e0.asFloat64, e1.asFloat64, e2.asFloat64, e3.asFloat64 with
    | some x, some y, some w, some h => .ok ⟨x, y, w, h⟩
    | _, _, _, _ => .panik "interface conversion: interface is not float64"
  | _ => .panik "runtime error: index out of range"

/-- `(*OCRCrop).UnmarshalJSON`. -/
def OCRCrop.unmarshalJSON (data : Json) : GoResult OCRCrop :=
  match data with
  | .arr v => cropFromElems v
  | .null => cropFromElems []
  | _ => .err "json: cannot unmarshal value into Go value of type []interface"

/-! ## A JSON parser

Model of the `encoding/json` scanner restricted to the subset of JSON used
by template documents: objects, arrays, strings without escape sequences,
integer numbers, and the three literals.  The recursion is driven by fuel so
that every definition is structural and computes by `rfl`. -/

/-- Skip JSON whitespace. -/
def skipWS : List Char → List Char
  | c :: rest =>
    if c = ' ' ∨ c = '\t' ∨ c = '\n' ∨ c = '\r' then skipWS rest else c :: rest
  | [] => []

/-- Parse the characters of a string literal after the opening quote, up to
the closing quote (escape sequences are outside the modelled subset). -/
def parseStrAux : List Char → Option (List Char × List Char)
  | [] => none
  | c :: rest =>
    if c = '"' then some ([], rest)
    else if c = '\\' then none
    else
      match parseStrAux rest with
      | some (cs, rem) => some (c :: cs, rem)
      | none => none

/-- Consume a run of decimal digits, accumulating their value. -/
def digitsAux : List Char → Nat → Nat × List Char
  | c :: rest, acc =>
    if c.isDigit then digitsAux rest (10 * acc + (c.toNat - 48)) else (acc, c :: rest)
  | [], acc => (acc, [])

mutual

/-- Parse one JSON value. -/
def parseVal : Nat → List Char → Option (Json × List Char)
  | 0, _ => none
  | fuel + 1, input =>
    match skipWS input with
    | [] => none
    | 'n' :: 'u' :: 'l' :: 'l' :: rest => some (.null, rest)
    | 't' :: 'r' :: 'u' :: 'e' :: rest => some (.bool true, rest)
    | 'f' :: 'a' :: 'l' :: 's' :: 'e' :: rest => some (.bool false, rest)
    | '"' :: rest =>
      match parseStrAux rest with
      | some (cs, rem) => some (.str (String.mk cs), rem)
      | none => none
    | '[' :: rest =>
      (match skipWS rest with
       | ']' :: rem => some (.arr [], rem)
       | other =>
         match parseElems fuel other with
         | some (es, rem) => some (.arr es, rem)
         | none => none)
    | '{' :: rest =>
      (match skipWS rest with
       | '}' :: rem => some (.obj [], rem)
       | other =>
         match parseFields fuel other with
         | some (fs, rem) => some (.obj fs, rem)
         | none => none)
    | '-' :: c :: rest =>
      if c.isDigit then
        let (v, rem) := digitsAux rest (c.toNat - 48)
        some (.num (-(v : Int)), rem)
      else none
    | c :: rest =>
      if c.isDigit then
        let (v, rem) := digitsAux rest (c.toNat - 48)
        some (.num (v : Int), rem)
      else none

/-- Parse a non-empty comma-separated list of array elements plus the
closing bracket. -/
def parseElems : Nat → List Char → Option (List Json × List Char)
  | 0, _ => none
  | fuel + 1, input =>
    match parseVal fuel input with
    | none => none
    | some (j, rem) =>
      match skipWS rem with
      | ',' :: rest =>
        (match parseElems fuel rest with
         | some (es, rem2) => some (j :: es, rem2)
         | none => none)
      | ']' :: rest => some ([j], rest)
      | _ => none

/-- Parse a non-empty comma-separated list of object members plus the
closing brace. -/
def parseFields : Nat → List Char → Option (List (String × Json) × List Char)
  | 0, _ => none
  | fuel + 1, input =>
    match skipWS input with
    | '"' :: rest =>
      (match parseStrAux rest with
       | none => none
       | some (cs, rem) =>
         match skipWS rem with
         | ':' :: rest2 =>
           (match parseVal fuel rest2 with
            | none => none
            | some (j, rem2) =>
              match skipWS rem2 with
              | ',' :: rest3 =>
                (match parseFields fuel rest3 with
                 | some (fs, rem3) => some ((String.mk cs, j) :: fs, rem3)
                 | none => none)
              | '}' :: rest3 => some ([(String.mk cs, j)], rest3)
              | _ => none)
         | _ => none)
    | _ => none

end

/-- `json` document parsing: one value followed only by whitespace. -/
def parseJson (s : String) : Option Json :=
  match parseVal (4 * s.length + 8) s.data with
  | some (j, rest) => if skipWS rest = [] then some j else none
  | none => none

/-! ## Decoding template documents

Model of `encoding/json` unmarshalling into the schema structs: keyed
objects populate the matching fields, JSON `null` leaves a field unchanged
(and sets pointer fields to nil), a wrong-shaped value is a returned type
error, and panics from the custom positional decoders propagate.  The Go
decoder fills fields preceding the first type error before returning it;
since no claim observes the partially filled struct next to a non-nil error,
the model returns the error alone. -/

/-- Decode every element of a list, propagating errors and panics. -/
def mapGoResult {α β : Type} (f : α → GoResult β) : List α → GoResult (List β)
  | [] => .ok []
  | a :: as =>
    match f a with
    | .ok b =>
      (match mapGoResult f as with
       | .ok bs => .ok (b :: bs)
       | .err e => .err e
       | .panik p => .panik p)
    | .err e => .err e
    | .panik p => .panik p

/-- Fold the members of a JSON object into a struct value, propagating
errors and panics from the per-field updates. -/
def foldFieldsM {σ : Type} (apply : σ → String × Json → GoResult σ) :
    σ → List (String × Json) → GoResult σ
  | s, [] => .ok s
  | s, f :: fs =>
    match apply s f with
    | .ok s2 => foldFieldsM apply s2 fs
    | .err e => .err e
    | .panik p => .panik p

/-- Decode a JSON value into a Go `string` field (`null` keeps the current
value). -/
def decodeGoString (v : Json) (cur : String) : GoResult String :=
  match v with
  | .str s => .ok s
  | .null => .ok cur
  | _ => .err "json: cannot unmarshal value into Go value of type string"

/-- Decode a JSON value into a Go `int` field (`null` keeps the current
value; template documents use integer literals, decoded exactly). -/
def decodeGoInt (v : Json) (cur : Int) : GoResult Int :=
  match v with
  | .num n => .ok n
  | .null => .ok cur
  | _ => .err "json: cannot unmarshal value into Go value of type int"

/-- Decode a JSON value into a `[]string` field. -/
def decodeStringList (v : Json) (cur : List String) : GoResult (List String) :=
  match v with
  | .null => .ok cur
  | .arr es =>
    (match mapGoResult (fun e => decodeGoString e "") es with
     | .ok ss => .ok ss
     | .err e => .err e
     | .panik p => .panik p)
  | _ => .err "json: cannot unmarshal value into Go value of type []string"

/-- One `ROKOCRSchema` member, keyed by its JSON tag. -/
def applySchemaField (s : ROKOCRSchema) : String × Json → GoResult ROKOCRSchema
  | (k, v) =>
    if k = "callback" then .ok { s with Callback := v }
    else if k = "lang" then
      match decodeStringList v s.Languages with
      | .ok ss => .ok { s with Languages := ss }
      | .err e => .err e
      | .panik p => .panik p
    else if k = "oem" then
      match decodeGoInt v s.OEM with
      | .ok n => .ok { s with OEM := n }
      | .err e => .err e
      | .panik p => .panik p
    else if k = "psm" then
      match decodeGoInt v s.PSM with
      | .ok n => .ok { s with PSM := n }
      | .err e => .err e
      | .panik p => .panik p
    else if k = "crop" then
      match v with
      | .null => .ok { s with Crop := none }
      | _ =>
        match OCRCrop.unmarshalJSON v with
        | .ok c => .ok { s with Crop := some c }
        | .err e => .err e
        | .panik p => .panik p
    else if k = "allowlist" then
      match v with
      | .null => .ok s
      | .arr es => .ok { s with AllowList := es }
      | _ => .err "json: cannot unmarshal value into Go value of type []interface"
    else .ok s

/-- Decode a JSON value into a `ROKOCRSchema`. -/
def decodeROKOCRSchema (v : Json) : GoResult ROKOCRSchema :=
  match v with
  | .obj fs => foldFieldsM applySchemaField {} fs
  | .null => .ok {}
  | _ => .err "json: cannot unmarshal value into Go value of type ROKOCRSchema"

/-- One `OCRCheckpoint` member, keyed by its JSON tag. -/
def applyCheckpointField (s : OCRCheckpoint) : String × Json → GoResult OCRCheckpoint
  | (k, v) =>
    if k = "crop" then
      match v with
      | .null => .ok { s with Crop := none }
      | _ =>
        match OCRCrop.unmarshalJSON v with
        | .ok c => .ok { s with Crop := some c }
        | .err e => .err e
        | .panik p => .panik p
    else if k = "fingerprint" then
      match decodeGoString v s.Fingerprint with
      | .ok f => .ok { s with Fingerprint := f }
      | .err e => .err e
      | .panik p => .panik p
    else .ok s

/-- Decode a JSON value into an `OCRCheckpoint`. -/
def decodeOCRCheckpoint (v : Json) : GoResult OCRCheckpoint :=
  match v with
  | .obj fs => foldFieldsM applyCheckpointField ⟨none, ""⟩ fs
  | .null => .ok ⟨none, ""⟩
  | _ => .err "json: cannot unmarshal value into Go value of type OCRCheckpoint"

/-- One `RokOCRTemplate` member, keyed by its JSON tag. -/
def applyTemplateField (t : RokOCRTemplate) : String × Json → GoResult RokOCRTemplate
  | (k, v) =>
    if k = "title" then
      match decodeGoString v t.Title with
      | .ok s => .ok { t with Title := s }
      | .err e => .err e
      | .panik p => .panik p
    else if k = "version" then
      match decodeGoString v t.Version with
      | .ok s => .ok { t with Version := s }
      | .err e => .err e
      | .panik p => .panik p
    else if k = "author" then
      match decodeGoString v t.Author with
      | .ok s => .ok { t with Author := s }
      | .err e => .err e
      | .panik p => .panik p
    else if k = "width" then
      match decodeGoInt v t.Width with
      | .ok n => .ok { t with Width := n }
      | .err e => .err e
      | .panik p => .panik p
    else if k = "height" then
      match decodeGoInt v t.Height with
      | .ok n => .ok { t with Height := n }
      | .err e => .err e
      | .panik p => .panik p
    else if k = "fingerprint" then
      match decodeGoString v t.Fingerprint with
      | .ok s => .ok { t with Fingerprint := s }
      | .err e => .err e
      | .panik p => .panik p
    else if k = "threshold" then
      match decodeGoInt v t.Threshold with
      | .ok n => .ok { t with Threshold := n }
      | .err e => .err e
      | .panik p => .panik p
    else if k = "ocr_schema" then
      match v with
      | .null => .ok t
      | .obj fs =>
        (match mapGoResult (fun kv => match decodeROKOCRSchema kv.2 with
            | .ok s => .ok (kv.1, s)
            | .err e => .err e
            | .panik p => .panik p) fs with
         | .ok m => .ok { t with OCRSchema := m }
         | .err e => .err e
         | .panik p => .panik p)
      | _ => .err "json: cannot unmarshal value into Go value of type map"
    else if k = "table" then
      match v with
      | .null => .ok t
      | .arr es =>
        (match mapGoResult ROKTableField.unmarshalJSON es with
         | .ok tf => .ok { t with Table := tf }
         | .err e => .err e
         | .panik p => .panik p)
      | _ => .err "json: cannot unmarshal value into Go value of type []ROKTableField"
    else if k = "checkpoints" then
      match v with
      | .null => .ok t
      | .arr es =>
        (match mapGoResult decodeOCRCheckpoint es with
         | .ok cs => .ok { t with Checkpoints := cs }
         | .err e => .err e
         | .panik p => .panik p)
      | _ => .err "json: cannot unmarshal value into Go value of type []OCRCheckpoint"
    else .ok t

/-- Decode a parsed document into a `RokOCRTemplate`. -/
def decodeTemplate (j : Json) : GoResult RokOCRTemplate :=
  match j with
  | .obj fs => foldFieldsM applyTemplateField {} fs
  | .null => .ok {}
  | _ => .err "json: cannot unmarshal value into Go value of type RokOCRTemplate"

/-- `json.Unmarshal(b, &t)` for a template: parse failures and type errors
are returned (with the zero template), panics from the positional decoders
propagate. -/
def jsonUnmarshalTemplate (s : String) : GoResult (RokOCRTemplate × Option String) :=
  match parseJson s with
  | none =>
    .ok ({}, some (if (skipWS s.data).isEmpty then "unexpected end of JSON input"
                   else "invalid JSON document"))
  | some j =>
    match decodeTemplate j with
    | .ok t => .ok (t, none)
    | .err e => .ok ({}, some e)
    | .panik p => .panik p

/-- `LoadTemplate`: reads the file, discards the read error (`b, _ :=`), and
unmarshals whatever bytes resulted — the empty byte sequence when the read
failed.  The argument is the outcome of the `ioutil.ReadFile` collaborator. -/
def LoadTemplate (readResult : Except String String) :
    GoResult (RokOCRTemplate × Option String) :=
  let b := match readResult with
           | .ok contents => contents
           | .error _ => ""
  jsonUnmarshalTemplate b

/-! ## Basic facts about the hash model -/

theorem parseUintHex64_lt (s : String) : (parseUintHex64 s).1 < 2 ^ 64 := by
  unfold parseUintHex64
  split
  · norm_num
  · norm_num
  · dsimp only
    split
    · simpa using ‹_›
    · norm_num

theorem goDifferenceHash_lt (img : GoImage) : (goDifferenceHash img).hash < 2 ^ 64 :=
  Nat.mod_lt _ (by norm_num)

theorem hash_kind_fromString (s : String) : (differenceHashFromString s).kind = .dHash := rfl

theorem differenceHashFromString_lt (s : String) :
    (differenceHashFromString s).hash < 2 ^ 64 := parseUintHex64_lt s

/-- Distance between two DHash-kind hashes never errors and is the popcount
of the XOR. -/
theorem dhash_distance (a b : Nat) :
    ImageHash.Distance ⟨a, .dHash⟩ ⟨b, .dHash⟩ = .ok (popcnt (Nat.xor a b)) := by
  simp [ImageHash.Distance]

theorem popcnt_eq_zero_iff {x : Nat} (hx : x < 2 ^ 64) : popcnt x = 0 ↔ x = 0 := by
  constructor
  · intro h
    apply Nat.eq_of_testBit_eq
    intro i
    rw [Nat.zero_testBit]
    by_cases hi : i < 64
    · by_contra hbit
      have hmem : i ∈ (List.range 64).filter (fun j => x.testBit j) :=
        List.mem_filter.mpr ⟨List.mem_range.mpr hi, by simpa using hbit⟩
      have hpos : 0 < popcnt x := by
        rw [popcnt]
        exact List.length_pos.mpr (fun hnil => by simp [hnil] at hmem)
      omega
    · exact Nat.testBit_lt_two_pow
        (lt_of_lt_of_le hx (Nat.pow_le_pow_right (by norm_num) (le_of_not_lt hi)))
  · rintro rfl
    decide

theorem popcnt_xor_eq_zero_iff {a b : Nat} (ha : a < 2 ^ 64) (hb : b < 2 ^ 64) :
    popcnt (Nat.xor a b) = 0 ↔ a = b := by
  have hlt : Nat.xor a b < 2 ^ 64 := Nat.xor_lt_two_pow ha hb
  rw [popcnt_eq_zero_iff hlt]
  exact Nat.xor_eq_zero

theorem natXor_comm (a b : Nat) : Nat.xor a b = Nat.xor b a := Nat.xor_comm a b

/-! ## Claim theorems -/

/-- C1: for a template with zero checkpoints, `Matches` returns true exactly
when the Hamming distance between the image's difference hash and the
template's decoded fingerprint hash is at most the template threshold; with
threshold 0 a match forces the two hashes to be equal. -/
theorem matches_no_checkpoints (img : GoImage) (t : RokOCRTemplate)
    (h : t.Checkpoints = []) :
    (t.Matches img = .ok true ↔
      ((popcnt (Nat.xor (goDifferenceHash img).hash t.Hash.hash) : Int) ≤ t.Threshold))
    ∧ (t.Threshold = 0 →
      (t.Matches img = .ok true ↔ (goDifferenceHash img).hash = t.Hash.hash)) := by
  have hkt : t.Hash.kind = .dHash := rfl
  have hm : t.Matches img = .ok (t.Match (goDifferenceHash img)) := by
    simp [RokOCRTemplate.Matches, h]
  have hd : t.Hash.Distance (goDifferenceHash img) =
      .ok (popcnt (Nat.xor t.Hash.hash (goDifferenceHash img).hash)) := by
    simp [ImageHash.Distance, hkt, goDifferenceHash]
  have hmatch : t.Match (goDifferenceHash img) =
      decide ((popcnt (Nat.xor (goDifferenceHash img).hash t.Hash.hash) : Int) ≤ t.Threshold) := by
    rw [RokOCRTemplate.Match, hd, natXor_comm]
  constructor
  · rw [hm, hmatch]
    simp
  · intro h0
    rw [hm, hmatch, h0]
    have hcast : ∀ d : Nat, ((d : Int) ≤ 0 ↔ d = 0) := by intro d; omega
    simp only [GoResult.ok.injEq, decide_eq_true_eq, hcast]
    exact popcnt_xor_eq_zero_iff (goDifferenceHash_lt img) (parseUintHex64_lt t.Fingerprint)

/-- Image and template used to instantiate the claim theorems. -/
def img0 : GoImage := ⟨⟨0, 0, 8, 8⟩, fun _ => 0⟩

/-- A checkpoint-free template with a zero fingerprint and threshold 0. -/
def tC1 : RokOCRTemplate := { Fingerprint := "0", Threshold := 0 }

/-- Witness for C1 at a concrete image and template. -/
theorem matches_no_checkpoints_witness :
    tC1.Matches img0 = .ok true ↔ (goDifferenceHash img0).hash = tC1.Hash.hash :=
  (matches_no_checkpoints img0 tC1 rfl).2 rfl

/-- A checkpoint that can be evaluated without failing: its crop rectangle
is present and lies inside the image bounds. -/
def checkpointWF (img : GoImage) (c : OCRCheckpoint) : Prop :=
  ∃ r, c.Crop = some r ∧ r.CropRectange.inRect img.bounds = true

/-- Hamming distance between the difference hash of the sub-image at the
checkpoint's crop rectangle and the checkpoint's decoded fingerprint. -/
def checkpointDist (img : GoImage) (c : OCRCheckpoint) : Nat :=
  match c.Crop with
  | some r =>
    popcnt (Nat.xor (img.dhashAt r.CropRectange % 2 ^ 64)
      (differenceHashFromString c.Fingerprint).hash)
  | none => 0

/-- One step of the checkpoint loop on a well-formed checkpoint: pass on
distance at most 1, otherwise stop with false. -/
theorem matchCheckpoints_cons_wf (img : GoImage) (c : OCRCheckpoint)
    (rest : List OCRCheckpoint) (r : OCRCrop) (hc : c.Crop = some r)
    (hin : r.CropRectange.inRect img.bounds = true) :
    matchCheckpoints img (c :: rest) =
      if checkpointDist img c ≤ 1 then matchCheckpoints img rest else .ok false := by
  have hsub : CropImage img r.CropRectange = .ok ⟨r.CropRectange, img.dhashAt⟩ := by
    simp [CropImage, hin]
  have hD : checkpointDist img c =
      popcnt (Nat.xor (img.dhashAt r.CropRectange % 2 ^ 64)
        (differenceHashFromString c.Fingerprint).hash) := by
    simp only [checkpointDist, hc]
  have hhm : hashMatches ((CropImage img r.CropRectange).toOption)
      (differenceHashFromString c.Fingerprint) = .ok (decide (checkpointDist img c ≤ 1)) := by
    rw [hsub, hD]
    rfl
  rw [matchCheckpoints, hc]
  dsimp only
  rw [hhm]
  by_cases hd : checkpointDist img c ≤ 1
  · rw [if_pos hd]
    simp [hd]
  · rw [if_neg hd]
    simp [hd]

/-- The checkpoint loop returns true exactly when every checkpoint's
distance is at most 1 (all checkpoints well-formed). -/
theorem matchCheckpoints_ok_true_iff (img : GoImage) (cs : List OCRCheckpoint)
    (hwf : ∀ c ∈ cs, checkpointWF img c) :
    (matchCheckpoints img cs = .ok true ↔ ∀ c ∈ cs, checkpointDist img c ≤ 1) := by
  induction cs with
  | nil => simp [matchCheckpoints]
  | cons c rest ih =>
    obtain ⟨r, hc, hin⟩ := hwf c (by simp)
    rw [matchCheckpoints_cons_wf img c rest r hc hin]
    by_cases hd : checkpointDist img c ≤ 1
    · rw [if_pos hd, ih (fun c2 h2 => hwf c2 (by simp [h2]))]
      constructor
      · intro hall c2 h2
        rcases List.mem_cons.mp h2 with h2 | h2
        · subst h2; exact hd
        · exact hall c2 h2
      · intro hall c2 h2
        exact hall c2 (by simp [h2])
    · rw [if_neg hd]
      constructor
      · intro hfalse
        exact absurd hfalse (by simp)
      · intro hall
        exact absurd (hall c (by simp)) hd

/-- The checkpoint loop stops with false at the first failing checkpoint,
whatever follows it (the tail is never evaluated). -/
theorem matchCheckpoints_shortcircuit (img : GoImage) (pre post : List OCRCheckpoint)
    (c : OCRCheckpoint)
    (hpre : ∀ c2 ∈ pre, checkpointWF img c2 ∧ checkpointDist img c2 ≤ 1)
    (hwfc : checkpointWF img c) (hfail : 1 < checkpointDist img c) :
    matchCheckpoints img (pre ++ c :: post) = .ok false := by
  induction pre with
  | nil =>
    obtain ⟨r, hc, hin⟩ := hwfc
    rw [List.nil_append, matchCheckpoints_cons_wf img c post r hc hin, if_neg (by omega)]
  | cons p pre2 ih =>
    obtain ⟨⟨r, hc, hin⟩, hd⟩ := hpre p (by simp)
    rw [List.cons_append, matchCheckpoints_cons_wf img p _ r hc hin, if_pos hd]
    exact ih (fun c2 h2 => hpre c2 (by simp [h2]))

/-- C2: with a non-empty checkpoint list (all crops present and in bounds),
`Matches` returns true exactly when every checkpoint's crop hashes to within
Hamming distance 1 of its decoded fingerprint — a fixed bound, not the
template threshold — and returns false at the first failing checkpoint
without evaluating anything after it. -/
theorem matches_with_checkpoints :
    (∀ (img : GoImage) (t : RokOCRTemplate), t.Checkpoints ≠ [] →
      (∀ c ∈ t.Checkpoints, checkpointWF img c) →
      (t.Matches img = .ok true ↔ ∀ c ∈ t.Checkpoints, checkpointDist img c ≤ 1))
    ∧ (∀ (img : GoImage) (t : RokOCRTemplate) (pre post : List OCRCheckpoint)
        (c : OCRCheckpoint),
        t.Checkpoints = pre ++ c :: post →
        (∀ c2 ∈ pre, checkpointWF img c2 ∧ checkpointDist img c2 ≤ 1) →
        checkpointWF img c → 1 < checkpointDist img c →
        t.Matches img = .ok false) := by
  constructor
  · intro img t hne hwf
    have hemp : t.Checkpoints.isEmpty = false := by
      simpa [List.isEmpty_iff] using hne
    rw [RokOCRTemplate.Matches]
    simp only [hemp, Bool.false_eq_true, if_false]
    exact matchCheckpoints_ok_true_iff img t.Checkpoints hwf
  · intro img t pre post c hcp hpre hwfc hfail
    rw [RokOCRTemplate.Matches, hcp, if_neg (by simp)]
    exact matchCheckpoints_shortcircuit img pre post c hpre hwfc hfail

/-- A template with one well-formed checkpoint over `img0`. -/
def tC2 : RokOCRTemplate := { Checkpoints := [⟨some ⟨0, 0, 4, 4⟩, "0"⟩] }

/-- Witness for C2 at a concrete image and template. -/
theorem matches_with_checkpoints_witness :
    tC2.Matches img0 = .ok true ↔ ∀ c ∈ tC2.Checkpoints, checkpointDist img0 c ≤ 1 :=
  matches_with_checkpoints.1 img0 tC2 (by simp [tC2])
    (by
      intro c hc
      simp only [tC2, List.mem_singleton] at hc
      subst hc
      exact ⟨⟨0, 0, 4, 4⟩, rfl, rfl⟩)

/-- C3: when checkpoints are present, the match result does not depend on
the whole-image Fingerprint and Threshold fields: two templates agreeing on
everything else (and on a non-empty checkpoint list) match the same images. -/
theorem matches_ignores_fingerprint_threshold (img : GoImage) (t1 t2 : RokOCRTemplate)
    (hTitle : t1.Title = t2.Title) (hVersion : t1.Version = t2.Version)
    (hAuthor : t1.Author = t2.Author) (hWidth : t1.Width = t2.Width)
    (hHeight : t1.Height = t2.Height) (hSchema : t1.OCRSchema = t2.OCRSchema)
    (hTable : t1.Table = t2.Table) (hCp : t1.Checkpoints = t2.Checkpoints)
    (hne : t1.Checkpoints ≠ []) :
    t1.Matches img = t2.Matches img := by
  have hne2 : t2.Checkpoints ≠ [] := hCp ▸ hne
  rw [RokOCRTemplate.Matches, RokOCRTemplate.Matches,
    if_neg (by simp [List.isEmpty_iff, hne]), if_neg (by simp [List.isEmpty_iff, hne2]), hCp]

/-- First of two templates sharing a checkpoint but differing in whole-image
fingerprint and threshold. -/
def tC3a : RokOCRTemplate :=
  { Fingerprint := "abc", Threshold := 3, Checkpoints := [⟨some ⟨0, 0, 4, 4⟩, "0"⟩] }

/-- Second of the pair: different fingerprint and threshold, same checkpoint. -/
def tC3b : RokOCRTemplate :=
  { Fingerprint := "ffff", Threshold := -2, Checkpoints := [⟨some ⟨0, 0, 4, 4⟩, "0"⟩] }

/-- Witness for C3 at a concrete pair of templates. -/
theorem matches_ignores_fingerprint_threshold_witness :
    tC3a.Matches img0 = tC3b.Matches img0 :=
  matches_ignores_fingerprint_threshold img0 tC3a tC3b rfl rfl rfl rfl rfl rfl rfl rfl
    (by simp [tC3a])

/-- The checkpoint loop never leaves the normal path when every checkpoint
is well-formed. -/
theorem matchCheckpoints_total (img : GoImage) (cs : List OCRCheckpoint)
    (hwf : ∀ c ∈ cs, checkpointWF img c) :
    ∃ b : Bool, matchCheckpoints img cs = .ok b := by
  induction cs with
  | nil => exact ⟨true, rfl⟩
  | cons c rest ih =>
    obtain ⟨r, hc, hin⟩ := hwf c (by simp)
    rw [matchCheckpoints_cons_wf img c rest r hc hin]
    by_cases hd : checkpointDist img c ≤ 1
    · rw [if_pos hd]
      exact ih (fun c2 h2 => hwf c2 (by simp [h2]))
    · rw [if_neg hd]
      exact ⟨false, rfl⟩

/-- A template whose only checkpoint has no crop rectangle (a nil pointer in
the Go struct). -/
def tC4 : RokOCRTemplate := { Checkpoints := [⟨none, "ff"⟩] }

/-- C4 counterexample: a checkpoint with a nil crop rectangle makes `Matches`
panic with a nil-pointer dereference instead of resolving to false. -/
theorem matches_nil_crop_panics :
    tC4.Matches img0 =
      .panik "runtime error: invalid memory address or nil pointer dereference" := rfl

/-- C4 amended: `Match` is a total boolean function, and `Matches` neither
panics nor errors — it returns a boolean — whenever every checkpoint's crop
rectangle is present and inside the image bounds; a checkpoint with an
absent crop rectangle panics instead (see the counterexample). -/
theorem matches_total_wf (img : GoImage) (t : RokOCRTemplate)
    (hwf : ∀ c ∈ t.Checkpoints, checkpointWF img c) :
    ∃ b : Bool, t.Matches img = .ok b := by
  rw [RokOCRTemplate.Matches]
  by_cases hemp : t.Checkpoints.isEmpty
  · rw [if_pos hemp]
    exact ⟨_, rfl⟩
  · rw [if_neg hemp]
    exact matchCheckpoints_total img t.Checkpoints hwf

/-- Witness for the amended C4 at a concrete template. -/
theorem matches_total_wf_witness : ∃ b : Bool, tC2.Matches img0 = .ok b :=
  matches_total_wf img0 tC2
    (by
      intro c hc
      simp only [tC2, List.mem_singleton] at hc
      subst hc
      exact ⟨⟨0, 0, 4, 4⟩, rfl, rfl⟩)

/-- JSON values that `encoding/json` will unmarshal into `[]interface`
without a type error: arrays and `null`. -/
def Json.sliceable : Json → Bool
  | .arr _ => true
  | .null => true
  | _ => false

/-- C5 counterexample: a document whose table descriptor array has fewer
than 4 elements makes `LoadTemplate` panic with an index-out-of-range
runtime error; it neither returns a deserialization error nor succeeds. -/
theorem loadTemplate_short_array_panics :
    LoadTemplate (.ok "\x7b\"table\": [[\"a\", \"b\"]]\x7d") =
      .panik "runtime error: index out of range" := rfl

/-- C5 amended: a document position that is not an array at all yields a
returned deserialization error, but a positional array with fewer than 4
elements panics with an index error, a non-boolean at index 2 (or
non-string at index 3) of a table descriptor panics on the type assertion,
and a non-number element of a crop array panics on the float64 assertion. -/
theorem unmarshal_malformed_positional :
    (∀ v : List Json, v.length < 4 →
      ROKTableField.unmarshalJSON (.arr v) = .panik "runtime error: index out of range")
    ∧ (∀ v : List Json, v.length < 4 →
      OCRCrop.unmarshalJSON (.arr v) = .panik "runtime error: index out of range")
    ∧ (∀ (e0 e1 e2 e3 : Json) (v : List Json), (∀ b, e2 ≠ .bool b) →
      ROKTableField.unmarshalJSON (.arr (e0 :: e1 :: e2 :: e3 :: v)) =
        .panik "interface conversion: interface is not bool")
    ∧ (∀ (e0 e1 e2 e3 : Json) (v : List Json), (∀ n : Int, e0 ≠ .num n) →
      OCRCrop.unmarshalJSON (.arr (e0 :: e1 :: e2 :: e3 :: v)) =
        .panik "interface conversion: interface is not float64")
    ∧ (∀ j : Json, j.sliceable = false →
      (∃ e, ROKTableField.unmarshalJSON j = .err e) ∧
      (∃ e, OCRCrop.unmarshalJSON j = .err e)) := by
  refine ⟨?_, ?_, ?_, ?_, ?_⟩
  · intro v h
    rcases v with _ | ⟨a, _ | ⟨b, _ | ⟨c, _ | ⟨d, tl⟩⟩⟩⟩ <;>
      first
        | rfl
        | (exfalso; simp at h; omega)
  · intro v h
    rcases v with _ | ⟨a, _ | ⟨b, _ | ⟨c, _ | ⟨d, tl⟩⟩⟩⟩ <;>
      first
        | rfl
        | (exfalso; simp at h; omega)
  · intro e0 e1 e2 e3 v h
    cases e2 with
    | bool b => exact absurd rfl (h b)
    | _ => rfl
  · intro e0 e1 e2 e3 v h
    cases e0 with
    | num n => exact absurd rfl (h n)
    | _ => rfl
  · intro j h
    cases j <;> simp_all [Json.sliceable, ROKTableField.unmarshalJSON, OCRCrop.unmarshalJSON]

/-- Witness for the amended C5 at concrete malformed inputs. -/
theorem unmarshal_malformed_positional_witness :
    ROKTableField.unmarshalJSON (.arr [.str "a", .str "b"]) =
      .panik "runtime error: index out of range"
    ∧ OCRCrop.unmarshalJSON (.arr [.num 1]) = .panik "runtime error: index out of range"
    ∧ ROKTableField.unmarshalJSON (.arr [.str "a", .str "b", .num 3, .str "c"]) =
      .panik "interface conversion: interface is not bool"
    ∧ OCRCrop.unmarshalJSON (.arr [.str "x", .num 1, .num 2, .num 3]) =
      .panik "interface conversion: interface is not float64"
    ∧ (∃ e, ROKTableField.unmarshalJSON (.str "q") = .err e) :=
  ⟨unmarshal_malformed_positional.1 [.str "a", .str "b"] (by simp),
   unmarshal_malformed_positional.2.1 [.num 1] (by simp),
   unmarshal_malformed_positional.2.2.1 (.str "a") (.str "b") (.num 3) (.str "c") []
     (fun b h => Json.noConfusion h),
   unmarshal_malformed_positional.2.2.2.1 (.str "x") (.num 1) (.num 2) (.num 3) []
     (fun n h => Json.noConfusion h),
   (unmarshal_malformed_positional.2.2.2.2 (.str "q") rfl).1⟩

/-- The integer value of the nearest float64 is the integer itself below
`2 ^ 53`. -/
theorem float64OfInt_exact (n : Int) (h : n.natAbs < 2 ^ 53) : float64OfInt n = n := by
  rw [float64OfInt, roundF64Nat, if_pos h]
  split <;> omega

/-- C6 counterexample: a crop rectangle with X = 2^62 + 1 encodes to the
exact decimal but decodes through float64 to 2^62, so encoding then decoding
does not return the original value. -/
theorem crop_roundtrip_fails_large :
    OCRCrop.unmarshalJSON (OCRCrop.marshalJSON ⟨2 ^ 62 + 1, 0, 0, 0⟩) =
      .ok ⟨2 ^ 62, 0, 0, 0⟩
    ∧ (⟨2 ^ 62, 0, 0, 0⟩ : OCRCrop) ≠ ⟨2 ^ 62 + 1, 0, 0, 0⟩ := by
  constructor
  · decide
  · decide

/-- C6 amended: a table column descriptor encodes to the positional array
[title, field, bold, color] and always round-trips; a crop rectangle encodes
to [x, y, w, h] and round-trips whenever each coordinate's magnitude is
below 2^53 (JSON numbers decode through float64, which is exact only in that
range — see the counterexample for a larger coordinate). -/
theorem positional_roundtrip_amended :
    (∀ b : ROKTableField,
      b.marshalJSON = .arr [.str b.Title, .str b.Field, .bool b.Bold, .str b.Color]
      ∧ ROKTableField.unmarshalJSON b.marshalJSON = .ok b)
    ∧ (∀ c : OCRCrop,
      c.marshalJSON = .arr [.num c.X, .num c.Y, .num c.W, .num c.H]
      ∧ (c.X.natAbs < 2 ^ 53 → c.Y.natAbs < 2 ^ 53 → c.W.natAbs < 2 ^ 53 →
          c.H.natAbs < 2 ^ 53 → OCRCrop.unmarshalJSON c.marshalJSON = .ok c)) := by
  constructor
  · intro b
    exact ⟨rfl, rfl⟩
  · intro c
    refine ⟨rfl, fun h1 h2 h3 h4 => ?_⟩
    simp only [OCRCrop.marshalJSON, OCRCrop.unmarshalJSON, cropFromElems, Json.asFloat64,
      float64OfInt_exact _ h1, float64OfInt_exact _ h2, float64OfInt_exact _ h3,
      float64OfInt_exact _ h4]

/-- Witness for the amended C6 at concrete values. -/
theorem positional_roundtrip_amended_witness :
    ROKTableField.unmarshalJSON
        (ROKTableField.marshalJSON ⟨"Name", "player_name", true, "#FFFFFF"⟩) =
      .ok ⟨"Name", "player_name", true, "#FFFFFF"⟩
    ∧ OCRCrop.unmarshalJSON (OCRCrop.marshalJSON ⟨1, 2, 3, 4⟩) = .ok ⟨1, 2, 3, 4⟩ :=
  ⟨(positional_roundtrip_amended.1 ⟨"Name", "player_name", true, "#FFFFFF"⟩).2,
   (positional_roundtrip_amended.2 ⟨1, 2, 3, 4⟩).2 (by decide) (by decide) (by decide)
     (by decide)⟩

/-- The hex-digit reader fails as soon as one character is not a hex
digit. -/
theorem parseHexDigits_none {l : List Char} {c : Char} (hc : c ∈ l)
    (hnone : hexDigitVal c = none) : parseHexDigits l = none := by
  induction l with
  | nil => cases hc
  | cons a as ih =>
    rcases List.mem_cons.mp hc with h | h
    · subst h
      simp [parseHexDigits, hnone]
    · cases ha : hexDigitVal a <;> simp [parseHexDigits, ha, ih h]

/-- C7: a fingerprint string that is not valid hexadecimal (empty, or with a
non-hex character) decodes to the 64-bit hash value 0 with no error — both
through `differenceHashFromString` (the per-checkpoint decode) and through
the template `Hash` operation. -/
theorem hash_invalid_hex_zero (s : String)
    (h : ¬(s.data ≠ [] ∧ ∀ c ∈ s.data, (hexDigitVal c).isSome)) :
    differenceHashFromString s = ⟨0, .dHash⟩
    ∧ ∀ t : RokOCRTemplate, t.Fingerprint = s → t.Hash = ⟨0, .dHash⟩ := by
  have hv : (parseUintHex64 s).1 = 0 := by
    by_cases hnil : s.data = []
    · rw [parseUintHex64, hnil]
      rfl
    · push_neg at h
      obtain ⟨c, hc, hcn⟩ := h hnil
      have hnone : hexDigitVal c = none :=
        Option.not_isSome_iff_eq_none.mp (by simpa using hcn)
      rw [parseUintHex64, parseHexDigits_none hc hnone]
  constructor
  · rw [differenceHashFromString, hv]
  · intro t ht
    rw [RokOCRTemplate.Hash, ht, differenceHashFromString, hv]

/-- Witness for C7 on the malformed fingerprint string "zz". -/
theorem hash_invalid_hex_zero_witness :
    differenceHashFromString "zz" = ⟨0, .dHash⟩
    ∧ ∀ t : RokOCRTemplate, t.Fingerprint = "zz" → t.Hash = ⟨0, .dHash⟩ :=
  hash_invalid_hex_zero "zz" (by decide)

/-- C8: `NewNumberField` presets an allow-list of exactly the digits 0–9,
language list ["eng"], page-segmentation mode 7 and engine mode 1;
`NewTextField` presets the same modes, the caller-supplied languages, and no
allow-list.  Both store the supplied crop area. -/
theorem field_constructors_spec :
    (∀ cropArea : Option OCRCrop,
      (NewNumberField cropArea).AllowList =
        [.num 0, .num 1, .num 2, .num 3, .num 4, .num 5, .num 6, .num 7, .num 8, .num 9]
      ∧ (NewNumberField cropArea).Languages = ["eng"]
      ∧ (NewNumberField cropArea).PSM = 7
      ∧ (NewNumberField cropArea).OEM = 1
      ∧ (NewNumberField cropArea).Crop = cropArea)
    ∧ (∀ (cropArea : Option OCRCrop) (languages : List String),
      (NewTextField cropArea languages).Languages = languages
      ∧ (NewTextField cropArea languages).PSM = 7
      ∧ (NewTextField cropArea languages).OEM = 1
      ∧ (NewTextField cropArea languages).AllowList = []
      ∧ (NewTextField cropArea languages).Crop = cropArea) :=
  ⟨fun _ => ⟨rfl, rfl, rfl, rfl, rfl⟩, fun _ _ => ⟨rfl, rfl, rfl, rfl, rfl⟩⟩

/-- C9: `LoadTemplate` never surfaces a read error: a failed read behaves
exactly like unmarshalling the empty byte sequence, which returns the
zero-value template together with the empty-input unmarshal error; a
successful read returns exactly the unmarshal outcome of the bytes. -/
theorem loadTemplate_read_error_swallowed :
    (∀ e : String,
      LoadTemplate (.error e) = jsonUnmarshalTemplate ""
      ∧ LoadTemplate (.error e) = .ok ({}, some "unexpected end of JSON input"))
    ∧ (∀ s : String, LoadTemplate (.ok s) = jsonUnmarshalTemplate s) :=
  ⟨fun _ => ⟨rfl, rfl⟩, fun _ => rfl⟩

/-- C10: a document with a negative threshold loads without complaint, and a
checkpoint-free template with a negative threshold matches no image, the
Hamming distance being a non-negative integer. -/
theorem negative_threshold_never_matches :
    LoadTemplate (.ok "\x7b\"threshold\": -5\x7d") = .ok ({ Threshold := -5 }, none)
    ∧ ∀ (t : RokOCRTemplate) (img : GoImage), t.Checkpoints = [] → t.Threshold < 0 →
        t.Matches img = .ok false := by
  constructor
  · rfl
  · intro t img hcp hneg
    have hkt : t.Hash.kind = .dHash := rfl
    have hm : t.Matches img = .ok (t.Match (goDifferenceHash img)) := by
      simp [RokOCRTemplate.Matches, hcp]
    have hd : t.Hash.Distance (goDifferenceHash img) =
        .ok (popcnt (Nat.xor t.Hash.hash (goDifferenceHash img).hash)) := by
      simp [ImageHash.Distance, hkt, goDifferenceHash]
    rw [hm, RokOCRTemplate.Match, hd]
    dsimp only
    rw [decide_eq_false (by omega : ¬((popcnt
      (Nat.xor t.Hash.hash (goDifferenceHash img).hash) : Int) ≤ t.Threshold))]

/-- A checkpoint-free template with a negative threshold. -/
def tC10 : RokOCRTemplate := { Threshold := -1 }

/-- Witness for C10 at a concrete template and image. -/
theorem negative_threshold_never_matches_witness : tC10.Matches img0 = .ok false :=
  negative_threshold_never_matches.2 tC10 img0 rfl (by decide)

end RokOCR
